import Mathlib

/-!
Verification of the scoring and ranking engine of Season Radar (`scoring.py`).

The engine is a set of pure functions over in-memory records: four component
scorers (temperature, precipitation, crowd, tags), a ranking pipeline
(exclusion filter, per-city scoring, stable descending sort, truncation) and a
text formatter. Python floats are modelled as real numbers; `round(x, 4)` is
modelled as rounding to the nearest multiple of 1/10000; Python list indexing
(including negative indices) is modelled by `pyIdx`; a Python exception is
modelled as `Option.none`.
-/

namespace SeasonRadar

open List

/-- Rounding to 4 decimal places, the model of Python's `round(x, 4)`. -/
noncomputable def round4 (x : ℝ) : ℝ := ((round (x * 10000) : ℤ) : ℝ) / 10000

/-- Temperature score, from `score_temperature` in `scoring.py`: neutral 0.65
when no bound is given, a missing bound synthesized as `city_temp ∓ 10`, bounds
swapped into order, a score of at least 0.85 biased toward the midpoint inside
the range, and a Gaussian decay `exp (-(gap / sigma) ^ 2 / 2)` outside. -/
noncomputable def score_temperature (city_temp : ℝ)
    (temp_min temp_max : Option ℝ) : ℝ :=
  if temp_min = none ∧ temp_max = none then 0.65
  else
    let tmin0 := temp_min.getD (city_temp - 10)
    let tmax0 := temp_max.getD (city_temp + 10)
    let tmin := min tmin0 tmax0
    let tmax := max tmin0 tmax0
    if tmin ≤ city_temp ∧ city_temp ≤ tmax then
      let mid := (tmin + tmax) / 2
      let half_range := max ((tmax - tmin) / 2) 1
      let closeness := 1.0 - 0.15 * |city_temp - mid| / half_range
      round4 (max 0.85 closeness)
    else
      let gap := max (tmin - city_temp) (city_temp - tmax)
      let sigma := max ((tmax - tmin) / 2) 3
      round4 (max 0.0 (Real.exp (-0.5 * (gap / sigma) ^ 2)))

/-- Precipitation score, from `score_precipitation` in `scoring.py`: the base
linear score `max 0 (1 - precip / 300)`, amplified by the exponent 0.6 for
`"low"` tolerance, compressed into `[0.5, 1]` for `"high"`, passed through
unchanged otherwise. -/
noncomputable def score_precipitation (monthly_precip : ℝ)
    (rain_tolerance : String) : ℝ :=
  let base := max 0.0 (1.0 - monthly_precip / 300.0)
  if rain_tolerance = "low" then round4 (base ^ (0.6 : ℝ))
  else if rain_tolerance = "high" then round4 (0.5 + base * 0.5)
  else round4 base

/-- Season classification of a month, from lines 72-77 of `scoring.py`:
peak-month membership is checked first, then shoulder, else off. -/
def seasonOf (month : ℤ) (peak_months shoulder_months : List ℤ) : String :=
  if month ∈ peak_months then "peak"
  else if month ∈ shoulder_months then "shoulder"
  else "off"

/-- The preference-to-season table of `score_crowd` in `scoring.py`, with the
dictionary lookup `table.get(crowd_preference, table["any"])[season]` rendered
as a decision chain; an unknown preference falls back to the `"any"` row. -/
noncomputable def crowd_table (crowd_preference season : String) : ℝ :=
  if crowd_preference = "off_peak" then
    if season = "off" then 1.0 else if season = "shoulder" then 0.55 else 0.05
  else if crowd_preference = "shoulder" then
    if season = "shoulder" then 1.0 else if season = "off" then 0.7 else 0.25
  else
    if season = "shoulder" then 1.0 else if season = "off" then 0.85 else 0.75

/-- Crowd score, from `score_crowd` in `scoring.py`: classify the month, then
look the season up in the preference table. -/
noncomputable def score_crowd (month : ℤ) (peak_months shoulder_months : List ℤ)
    (crowd_preference : String) : ℝ :=
  crowd_table crowd_preference (seasonOf month peak_months shoulder_months)

/-- Bool test that `xs` occurs at the start of `l` (model of Python string
startswith, used to build the substring test). -/
def listPre : List Char → List Char → Bool
  | [], _ => true
  | _ :: _, [] => false
  | a :: as, b :: bs => a == b && listPre as bs

/-- Bool test that `xs` occurs contiguously inside `l` (model of Python's
`xs in l` on strings). -/
def listSub (xs : List Char) : List Char → Bool
  | [] => xs.isEmpty
  | b :: bs => listPre xs (b :: bs) || listSub xs bs

/-- Model of Python's substring operator `sub in s` on strings. -/
def strIn (sub s : String) : Bool := listSub sub.data s.data

/-- Model of Python's `str.lower()`: lower-case every character.  This agrees
with `String.toLower` but is defined by structural recursion over the
character list, so that it computes definitionally. -/
def pyLower (s : String) : String := ⟨s.data.map Char.toLower⟩

/-- Tag-affinity score, from `score_tags` in `scoring.py`: neutral 0.65 with no
preferred tags, 0.2 for a tagless city, otherwise the fraction of preferred
tags matched exactly or by a bidirectional substring relation, capped at 1. -/
noncomputable def score_tags (city_tags preferred_tags : List String) : ℝ :=
  if preferred_tags = [] then 0.65
  else if city_tags = [] then 0.2
  else
    let city_tags_l := city_tags.map pyLower
    let preferred_tags_l := preferred_tags.map pyLower
    let n_matches := preferred_tags_l.countP (fun pt =>
      decide (pt ∈ city_tags_l) ||
        city_tags_l.any (fun ct => strIn pt ct || strIn ct pt))
    round4 (min 1.0 ((n_matches : ℝ) / (preferred_tags_l.length : ℝ)))

/-- A catalog city record, the shape consumed by `rank_cities`. -/
structure City where
  name : String
  country : String
  region : String
  monthly_temp : List ℝ
  monthly_precip : List ℝ
  peak_months : List ℤ
  shoulder_months : List ℤ
  tags : List String

/-- A preference record; each optional field mirrors a `preferences.get` call
in `rank_cities`, with `none` standing for an absent key. -/
structure Preferences where
  travel_month : Option ℤ := none
  temp_min : Option ℝ := none
  temp_max : Option ℝ := none
  rain_tolerance : Option String := none
  crowd_preference : Option String := none
  environment_tags : Option (List String) := none
  exclude_regions : Option (List String) := none
  num_results : Option ℕ := none

/-- The four component scores and the weighted final score of one candidate. -/
structure Scores where
  temp : ℝ
  rain : ℝ
  crowd : ℝ
  tags : ℝ
  final : ℝ

/-- The per-month data reported for one candidate. -/
structure MonthData where
  temp : ℝ
  precip : ℝ
  season : String

/-- One ranked candidate, the dictionary appended to `results`. -/
structure ScoredCity where
  city : City
  scores : Scores
  month_data : MonthData

/-- Python list indexing `l[i]`, with negative indices counting from the end;
`none` models an `IndexError`. -/
def pyIdx (l : List ℝ) (i : ℤ) : Option ℝ :=
  if 0 ≤ i then l[i.toNat]?
  else if -(l.length : ℤ) ≤ i then l[(i + l.length).toNat]?
  else none

/-- Zero-based month index, from `preferences.get("travel_month", 1) - 1`. -/
def month0 (p : Preferences) : ℤ := p.travel_month.getD 1 - 1

/-- Lower-cased exclusion terms, from
`[r.lower() for r in preferences.get("exclude_regions", [])]`. -/
def excludeList (p : Preferences) : List String :=
  (p.exclude_regions.getD []).map pyLower

/-- The exclusion test of `rank_cities`: some exclusion term occurs inside the
lower-cased region or country name. -/
def pyExcluded (exclude : List String) (city : City) : Bool :=
  exclude.any (fun ex =>
    strIn ex (pyLower city.region) || strIn ex (pyLower city.country))

/-- The loop body of `rank_cities` for one surviving city: index the monthly
arrays, run the four scorers, combine with the weights 0.40 / 0.30 / 0.20 /
0.10, and attach the season label. -/
noncomputable def score_city (prefs : Preferences) (city : City) :
    Option ScoredCity :=
  match pyIdx city.monthly_temp (month0 prefs),
      pyIdx city.monthly_precip (month0 prefs) with
  | some city_temp, some city_precip =>
    let t_score := score_temperature city_temp prefs.temp_min prefs.temp_max
    let r_score := score_precipitation city_precip
      (prefs.rain_tolerance.getD "medium")
    let c_score := score_crowd (month0 prefs + 1) city.peak_months
      city.shoulder_months (prefs.crowd_preference.getD "any")
    let g_score := score_tags city.tags (prefs.environment_tags.getD [])
    let final := round4
      (0.40 * t_score + 0.30 * r_score + 0.20 * c_score + 0.10 * g_score)
    let season_label :=
      if month0 prefs + 1 ∈ city.peak_months then "peak season"
      else if month0 prefs + 1 ∈ city.shoulder_months then "shoulder season"
      else "off season"
    some ⟨city, ⟨t_score, r_score, c_score, g_score, final⟩,
      ⟨city_temp, city_precip, season_label⟩⟩
  | _, _ => none

/-- The main loop of `rank_cities` over the catalog: excluded cities are
skipped, every other city is scored and appended in catalog order; `none`
models an exception raised while scoring. -/
noncomputable def survivors (prefs : Preferences) :
    List City → Option (List ScoredCity)
  | [] => some []
  | city :: rest =>
    if pyExcluded (excludeList prefs) city then survivors prefs rest
    else do
      let sc ← score_city prefs city
      let tail ← survivors prefs rest
      pure (sc :: tail)

/-- The comparator of the descending stable sort
`results.sort(key=lambda x: x["scores"]["final"], reverse=True)`. -/
noncomputable def cmpFinal (a b : ScoredCity) : Bool :=
  decide (b.scores.final ≤ a.scores.final)

/-- The ranking pipeline `rank_cities` of `scoring.py`: filter and score every
city, sort descending by final score (stably), truncate to `num_results`
(default `top_n`, itself default 8). -/
noncomputable def rank_cities (cities : List City) (preferences : Preferences)
    (top_n : ℕ := 8) : Option (List ScoredCity) :=
  (survivors preferences cities).map fun results =>
    (results.mergeSort cmpFinal).take (preferences.num_results.getD top_n)

/-- Rendering of a score with two decimal places, the model of Python's
`f"{x:.2f}"`. -/
noncomputable def fmt2 (x : ℝ) : String :=
  let n := round (x * 100)
  let m := n.natAbs
  (if n < 0 then "-" else "") ++ toString (m / 100) ++ "." ++
    (if m % 100 < 10 then "0" else "") ++ toString (m % 100)

/-- Model of Python's `str()` on a stored numeric value, used only for the raw
temperature and precipitation figures; digit-exact rendering of binary floats
is outside the model and no claim depends on it. -/
noncomputable def pyFloatStr (x : ℝ) : String := fmt2 x

/-- The per-candidate blocks of `format_results_for_claude`, one five-line
block per candidate, rank numbers counting from `i`. -/
noncomputable def formatBlocks (i : ℕ) : List ScoredCity → List String
  | [] => []
  | r :: rest =>
    [toString i ++ ". " ++ r.city.name ++ ", " ++ r.city.country ++
        "  [Score: " ++ fmt2 r.scores.final ++ "]",
      "   Avg temp: " ++ pyFloatStr r.month_data.temp ++ "°C | " ++
        "Precipitation: " ++ pyFloatStr r.month_data.precip ++ "mm | " ++
        "Status: " ++ r.month_data.season,
      "   Score breakdown — temp:" ++ fmt2 r.scores.temp ++ "  rain:" ++
        fmt2 r.scores.rain ++ "  crowd:" ++ fmt2 r.scores.crowd ++
        "  tags:" ++ fmt2 r.scores.tags,
      "   Tags: " ++ String.intercalate ", " r.city.tags,
      ""] ++ formatBlocks (i + 1) rest

/-- The formatter `format_results_for_claude` of `scoring.py`: a fixed
no-match message on empty input, otherwise a dataset header, one block per
candidate and a trailing instruction block, joined by newlines. -/
noncomputable def format_results_for_claude (ranked_results : List ScoredCity)
    (month_name : String) : String :=
  if ranked_results.isEmpty then
    "[No destinations matched the criteria for " ++ month_name ++
      ". Suggest broadening preferences.]"
  else
    String.intercalate "\n"
      (["[DATASET: TOP DESTINATIONS FOR " ++ month_name.toUpper ++ "]", ""] ++
        formatBlocks 1 ranked_results ++
        ["[INSTRUCTION: Use the data above to explain your recommendations. " ++
          "Cite actual temperatures and crowd status. " ++
          "Do NOT invent data not shown above.]"])

/-- The spec-side crowd table of section 4.3, written from the spec's words to
compare with the implementation table. -/
noncomputable def spec_crowd_value (preference season : String) : ℝ :=
  if preference = "off_peak" then
    if season = "off" then 1.00 else if season = "shoulder" then 0.55
    else if season = "peak" then 0.05 else 0
  else if preference = "shoulder" then
    if season = "off" then 0.70 else if season = "shoulder" then 1.00
    else if season = "peak" then 0.25 else 0
  else if preference = "any" then
    if season = "off" then 0.85 else if season = "shoulder" then 1.00
    else if season = "peak" then 0.75 else 0
  else 0

/-- Distance of a temperature from the preferred range, the quantity the
spec's monotonicity statement for the temperature scorer is about. -/
noncomputable def distToRange (t lo hi : ℝ) : ℝ := max 0 (max (lo - t) (t - hi))

/-! ### Concrete test fixtures used by the witnesses -/

/-- A benign catalog city: 20°C and 150mm in every month, no season sets. -/
noncomputable def cityA : City :=
  ⟨"Alpha", "Atlantis", "Euralia",
    [20, 20, 20, 20, 20, 20, 20, 20, 20, 20, 20, 20],
    [150, 150, 150, 150, 150, 150, 150, 150, 150, 150, 150, 150],
    [], [], []⟩

/-- A second city with the same climate data as `cityA`. -/
noncomputable def cityB : City :=
  ⟨"Beta", "Atlantis", "Euralia",
    [20, 20, 20, 20, 20, 20, 20, 20, 20, 20, 20, 20],
    [150, 150, 150, 150, 150, 150, 150, 150, 150, 150, 150, 150],
    [], [], []⟩

/-- A city in region "Southeast Asia", the exclusion example of the spec. -/
noncomputable def cityC : City :=
  ⟨"Gamma", "Siam", "Southeast Asia",
    [20, 20, 20, 20, 20, 20, 20, 20, 20, 20, 20, 20],
    [150, 150, 150, 150, 150, 150, 150, 150, 150, 150, 150, 150],
    [], [], []⟩

/-- The empty preference record: every lookup takes its default. -/
def prefsA : Preferences := {}

/-- A preference record requesting a single result. -/
def prefsN1 : Preferences := { num_results := some 1 }

/-- A preference record excluding the term "asia". -/
def prefsEx : Preferences := { exclude_regions := some ["asia"] }

/-- A preference record with the out-of-range travel month 0. -/
def prefs0 : Preferences := { travel_month := some 0 }

/-- The component scores of `cityA` under the default preferences. -/
noncomputable def scoresA : Scores :=
  ⟨score_temperature 20 none none, score_precipitation 150 "medium",
    score_crowd 1 [] [] "any", score_tags [] [],
    round4 (0.40 * score_temperature 20 none none +
      0.30 * score_precipitation 150 "medium" +
      0.20 * score_crowd 1 [] [] "any" + 0.10 * score_tags [] [])⟩

/-- `cityA` scored under the default preferences. -/
noncomputable def scA : ScoredCity := ⟨cityA, scoresA, ⟨20, 150, "off season"⟩⟩

/-- `cityB` scored under the default preferences. -/
noncomputable def scB : ScoredCity := ⟨cityB, scoresA, ⟨20, 150, "off season"⟩⟩

/-- The component scores of `cityA` when the zero-based month index is -1. -/
noncomputable def scoresA0 : Scores :=
  ⟨score_temperature 20 none none, score_precipitation 150 "medium",
    score_crowd 0 [] [] "any", score_tags [] [],
    round4 (0.40 * score_temperature 20 none none +
      0.30 * score_precipitation 150 "medium" +
      0.20 * score_crowd 0 [] [] "any" + 0.10 * score_tags [] [])⟩

/-- `cityA` scored under travel month 0 (December data via index -1). -/
noncomputable def scA0 : ScoredCity := ⟨cityA, scoresA0, ⟨20, 150, "off season"⟩⟩

/-! ### Helper lemmas about rounding -/

theorem round_mono_of_le {x y : ℝ} (h : x ≤ y) : round x ≤ round y := by
  rw [round_eq, round_eq]
  exact Int.floor_le_floor (by linarith)

theorem round4_mono {x y : ℝ} (h : x ≤ y) : round4 x ≤ round4 y := by
  unfold round4
  have h2 : round (x * 10000) ≤ round (y * 10000) :=
    round_mono_of_le (by linarith)
  have h3 : ((round (x * 10000) : ℤ) : ℝ) ≤ ((round (y * 10000) : ℤ) : ℝ) := by
    exact_mod_cast h2
  linarith

theorem round4_zero : round4 0 = 0 := by
  unfold round4
  norm_num

theorem round4_one : round4 1 = 1 := by
  unfold round4
  norm_num

theorem round4_nonneg {x : ℝ} (h : 0 ≤ x) : 0 ≤ round4 x :=
  round4_zero ▸ round4_mono h

theorem round4_le_one {x : ℝ} (h : x ≤ 1) : round4 x ≤ 1 :=
  round4_one ▸ round4_mono h

theorem round4_of_mul {x : ℝ} (n : ℤ) (h : x * 10000 = (n : ℝ)) :
    round4 x = x := by
  have hx : x = (n : ℝ) / 10000 := by
    field_simp
    linarith
  unfold round4
  rw [h, round_intCast, hx]

theorem round4_le_add {x : ℝ} : round4 x ≤ x + 1 / 20000 := by
  unfold round4
  have h := round_le_add_half (x * 10000)
  have h2 : ((round (x * 10000) : ℤ) : ℝ) ≤ x * 10000 + 1 / 2 := h
  linarith

theorem sub_le_round4 {x : ℝ} : x - 1 / 20000 ≤ round4 x := by
  unfold round4
  have h := sub_half_lt_round (x * 10000)
  have h2 : x * 10000 - 1 / 2 < ((round (x * 10000) : ℤ) : ℝ) := h
  linarith

/-! ### Range lemmas for the component scorers -/

theorem closeness_le_one {t mid hr : ℝ} (hhr : 1 ≤ hr) :
    1.0 - 0.15 * |t - mid| / hr ≤ 1 := by
  have h : 0 ≤ 0.15 * |t - mid| / hr :=
    div_nonneg (by positivity) (by linarith)
  linarith

theorem exp_term_le_one (g s : ℝ) : Real.exp (-0.5 * (g / s) ^ 2) ≤ 1 := by
  rw [Real.exp_le_one_iff]
  nlinarith [sq_nonneg (g / s)]

theorem score_temperature_mem (t : ℝ) (tmin tmax : Option ℝ) :
    0 ≤ score_temperature t tmin tmax ∧ score_temperature t tmin tmax ≤ 1 := by
  unfold score_temperature
  dsimp only
  split_ifs with h1 h2
  · norm_num
  · constructor
    · apply round4_nonneg
      exact le_trans (show (0 : ℝ) ≤ 0.85 by norm_num) (le_max_left _ _)
    · apply round4_le_one
      exact max_le (by norm_num) (closeness_le_one (le_max_right _ _))
  · constructor
    · apply round4_nonneg
      exact le_trans (show (0 : ℝ) ≤ 0.0 by norm_num) (le_max_left _ _)
    · apply round4_le_one
      exact max_le (by norm_num) (exp_term_le_one _ _)

theorem base_precip_mem {p : ℝ} (hp : 0 ≤ p) :
    0 ≤ max 0.0 (1.0 - p / 300.0) ∧ max 0.0 (1.0 - p / 300.0) ≤ 1 := by
  constructor
  · exact le_trans (show (0 : ℝ) ≤ 0.0 by norm_num) (le_max_left _ _)
  · apply max_le (by norm_num)
    have : 0 ≤ p / 300.0 := by positivity
    linarith

theorem score_precipitation_mem (p : ℝ) (tol : String) (hp : 0 ≤ p) :
    0 ≤ score_precipitation p tol ∧ score_precipitation p tol ≤ 1 := by
  obtain ⟨hb0, hb1⟩ := base_precip_mem hp
  unfold score_precipitation
  dsimp only
  split_ifs with h1 h2
  · exact ⟨round4_nonneg (Real.rpow_nonneg hb0 _),
      round4_le_one (Real.rpow_le_one hb0 hb1 (by norm_num))⟩
  · exact ⟨round4_nonneg (by linarith), round4_le_one (by linarith)⟩
  · exact ⟨round4_nonneg hb0, round4_le_one hb1⟩

theorem crowd_table_mem (p s : String) :
    0 ≤ crowd_table p s ∧ crowd_table p s ≤ 1 := by
  unfold crowd_table
  split_ifs <;> constructor <;> norm_num

theorem score_crowd_mem (m : ℤ) (pk sh : List ℤ) (pref : String) :
    0 ≤ score_crowd m pk sh pref ∧ score_crowd m pk sh pref ≤ 1 :=
  crowd_table_mem pref (seasonOf m pk sh)

theorem score_tags_mem (ct pt : List String) :
    0 ≤ score_tags ct pt ∧ score_tags ct pt ≤ 1 := by
  unfold score_tags
  dsimp only
  split_ifs with h1 h2
  · norm_num
  · norm_num
  · have hlen : 0 < ((pt.map String.toLower).length : ℝ) := by
      have : pt.map String.toLower ≠ [] := by
        simpa using h1
      have h3 : 0 < (pt.map String.toLower).length := List.length_pos.mpr this
      exact_mod_cast h3
    constructor
    · apply round4_nonneg
      apply le_min (by norm_num)
      positivity
    · apply round4_le_one
      exact le_trans (min_le_left _ _) (by norm_num)

/-! ### The substring test agrees with the mathematical substring property -/

theorem listPre_iff (xs : List Char) : ∀ l : List Char,
    (listPre xs l = true ↔ ∃ t, l = xs ++ t) := by
  induction xs with
  | nil => intro l; simp [listPre]
  | cons a as ih =>
    intro l
    cases l with
    | nil =>
      simp [listPre]
    | cons b bs =>
      simp only [listPre, Bool.and_eq_true, beq_iff_eq, ih bs, List.cons_append,
        List.cons.injEq]
      constructor
      · rintro ⟨rfl, t, rfl⟩
        exact ⟨t, rfl, rfl⟩
      · rintro ⟨t, rfl, rfl⟩
        exact ⟨rfl, t, rfl⟩

theorem listSub_iff (xs : List Char) : ∀ l : List Char,
    (listSub xs l = true ↔ ∃ l₁ l₂, l = l₁ ++ xs ++ l₂) := by
  intro l
  induction l with
  | nil =>
    simp only [listSub, List.isEmpty_iff]
    constructor
    · rintro rfl
      exact ⟨[], [], rfl⟩
    · rintro ⟨l₁, l₂, h⟩
      rcases List.append_eq_nil.mp (List.append_eq_nil.mp h.symm).1 with ⟨-, h2⟩
      exact h2
  | cons b bs ih =>
    simp only [listSub, Bool.or_eq_true, listPre_iff, ih]
    constructor
    · rintro (⟨t, ht⟩ | ⟨l₁, l₂, rfl⟩)
      · exact ⟨[], t, by simpa using ht⟩
      · exact ⟨b :: l₁, l₂, rfl⟩
    · rintro ⟨l₁, l₂, h⟩
      cases l₁ with
      | nil =>
        exact Or.inl ⟨l₂, by simpa using h⟩
      | cons c l₁ =>
        rcases List.cons.injEq .. ▸ h with ⟨rfl, h2⟩
        exact Or.inr ⟨l₁, l₂, by simpa using h2⟩

theorem strIn_iff (sub s : String) :
    strIn sub s = true ↔ ∃ l₁ l₂, s.data = l₁ ++ sub.data ++ l₂ :=
  listSub_iff sub.data s.data

/-! ### Indexing lemmas -/

theorem pyIdx_mem {l : List ℝ} {i : ℤ} {x : ℝ} (h : pyIdx l i = some x) :
    x ∈ l := by
  unfold pyIdx at h
  split_ifs at h
  · exact List.getElem?_mem h
  · exact List.getElem?_mem h

theorem pyIdx_neg_one_eq {l : List ℝ} (h : l.length = 12) :
    pyIdx l (-1) = l[11]? ∧ ∃ x, l[11]? = some x := by
  constructor
  · unfold pyIdx
    rw [h]
    norm_num
    simp
  · have h11 : 11 < l.length := by omega
    exact ⟨l[11], List.getElem?_eq_getElem h11⟩

/-! ### Characterization of the per-city loop body -/

theorem score_city_eq {prefs : Preferences} {c : City} {r : ScoredCity}
    (h : score_city prefs c = some r) :
    ∃ ct cp, pyIdx c.monthly_temp (month0 prefs) = some ct ∧
      pyIdx c.monthly_precip (month0 prefs) = some cp ∧
      r = ⟨c,
        ⟨score_temperature ct prefs.temp_min prefs.temp_max,
          score_precipitation cp (prefs.rain_tolerance.getD "medium"),
          score_crowd (month0 prefs + 1) c.peak_months c.shoulder_months
            (prefs.crowd_preference.getD "any"),
          score_tags c.tags (prefs.environment_tags.getD []),
          round4 (0.40 * score_temperature ct prefs.temp_min prefs.temp_max +
            0.30 * score_precipitation cp (prefs.rain_tolerance.getD "medium") +
            0.20 * score_crowd (month0 prefs + 1) c.peak_months
              c.shoulder_months (prefs.crowd_preference.getD "any") +
            0.10 * score_tags c.tags (prefs.environment_tags.getD []))⟩,
        ⟨ct, cp,
          if month0 prefs + 1 ∈ c.peak_months then "peak season"
          else if month0 prefs + 1 ∈ c.shoulder_months then "shoulder season"
          else "off season"⟩⟩ := by
  unfold score_city at h
  cases h1 : pyIdx c.monthly_temp (month0 prefs) with
  | none => rw [h1] at h; simp at h
  | some ct =>
    cases h2 : pyIdx c.monthly_precip (month0 prefs) with
    | none => rw [h1, h2] at h; simp at h
    | some cp =>
      rw [h1, h2] at h
      dsimp only at h
      exact ⟨ct, cp, rfl, rfl, (Option.some.inj h).symm⟩

theorem score_city_city {prefs : Preferences} {c : City} {r : ScoredCity}
    (h : score_city prefs c = some r) : r.city = c := by
  obtain ⟨ct, cp, -, -, h3⟩ := score_city_eq h
  rw [h3]

/-! ### Lemmas about the main loop -/

theorem survivors_nil (prefs : Preferences) : survivors prefs [] = some [] :=
  rfl

theorem survivors_cons_excluded {prefs : Preferences} {c : City}
    (rest : List City) (h : pyExcluded (excludeList prefs) c = true) :
    survivors prefs (c :: rest) = survivors prefs rest := by
  conv_lhs => rw [survivors]
  rw [if_pos h]

theorem survivors_cons_kept {prefs : Preferences} {c : City}
    (rest : List City) (h : pyExcluded (excludeList prefs) c = false) :
    survivors prefs (c :: rest) = (score_city prefs c).bind fun sc =>
      (survivors prefs rest).bind fun tail => some (sc :: tail) := by
  conv_lhs => rw [survivors]
  rw [if_neg (by simp [h])]
  rfl

theorem survivors_map_city {prefs : Preferences} {cities : List City}
    {L : List ScoredCity} (h : survivors prefs cities = some L) :
    L.map (fun r => r.city) =
      cities.filter (fun c => !pyExcluded (excludeList prefs) c) := by
  induction cities generalizing L with
  | nil =>
    rw [survivors_nil] at h
    cases h
    simp
  | cons c rest ih =>
    by_cases hex : pyExcluded (excludeList prefs) c
    · rw [survivors_cons_excluded rest hex] at h
      rw [List.filter_cons_of_neg (by simp [hex])]
      exact ih h
    · have hex2 : pyExcluded (excludeList prefs) c = false := by
        simpa using hex
      rw [survivors_cons_kept rest hex2] at h
      obtain ⟨sc, hsc, h2⟩ := Option.bind_eq_some.mp h
      obtain ⟨tail, htail, h3⟩ := Option.bind_eq_some.mp h2
      cases h3
      rw [List.filter_cons_of_pos (by simp [hex2])]
      simp only [List.map_cons, ih htail, score_city_city hsc]

theorem mem_survivors {prefs : Preferences} {cities : List City}
    {L : List ScoredCity} (h : survivors prefs cities = some L) {r : ScoredCity}
    (hr : r ∈ L) : r.city ∈ cities ∧ score_city prefs r.city = some r := by
  induction cities generalizing L with
  | nil =>
    rw [survivors_nil] at h
    cases h
    simp at hr
  | cons c rest ih =>
    by_cases hex : pyExcluded (excludeList prefs) c
    · rw [survivors_cons_excluded rest hex] at h
      obtain ⟨h1, h2⟩ := ih h hr
      exact ⟨List.mem_cons_of_mem c h1, h2⟩
    · have hex2 : pyExcluded (excludeList prefs) c = false := by
        simpa using hex
      rw [survivors_cons_kept rest hex2] at h
      obtain ⟨sc, hsc, h2⟩ := Option.bind_eq_some.mp h
      obtain ⟨tail, htail, h3⟩ := Option.bind_eq_some.mp h2
      cases h3
      rcases List.mem_cons.mp hr with rfl | hr2
      · have hc := score_city_city hsc
        rw [hc]
        exact ⟨List.mem_cons_self c rest, hsc⟩
      · obtain ⟨h1, h2⟩ := ih htail hr2
        exact ⟨List.mem_cons_of_mem c h1, h2⟩

theorem survivors_of_forall_isSome {prefs : Preferences} {cities : List City}
    (h : ∀ c ∈ cities, pyExcluded (excludeList prefs) c = false →
      (score_city prefs c).isSome) :
    ∃ L, survivors prefs cities = some L := by
  induction cities with
  | nil => exact ⟨[], rfl⟩
  | cons c rest ih =>
    obtain ⟨L, hL⟩ := ih fun x hx => h x (List.mem_cons_of_mem c hx)
    by_cases hex : pyExcluded (excludeList prefs) c
    · exact ⟨L, by rw [survivors_cons_excluded rest hex]; exact hL⟩
    · have hex2 : pyExcluded (excludeList prefs) c = false := by
        simpa using hex
      obtain ⟨sc, hsc⟩ := Option.isSome_iff_exists.mp
        (h c (List.mem_cons_self c rest) hex2)
      exact ⟨sc :: L, by rw [survivors_cons_kept rest hex2, hsc, hL]; rfl⟩

/-! ### Lemmas about the sort -/

theorem cmpFinal_trans : ∀ (a b c : ScoredCity),
    cmpFinal a b → cmpFinal b c → cmpFinal a c := by
  intro a b c h1 h2
  simp only [cmpFinal, decide_eq_true_eq] at h1 h2 ⊢
  exact le_trans h2 h1

theorem cmpFinal_total : ∀ (a b : ScoredCity), cmpFinal a b || cmpFinal b a := by
  intro a b
  simp only [cmpFinal, Bool.or_eq_true, decide_eq_true_eq]
  exact le_total _ _

theorem mergeSort_filter_stable (L : List ScoredCity) (v : ℝ) :
    (L.mergeSort cmpFinal).filter (fun r => decide (r.scores.final = v)) =
      L.filter (fun r => decide (r.scores.final = v)) := by
  have hsub : L.filter (fun r => decide (r.scores.final = v)) <+ L :=
    List.filter_sublist L
  have hpair : (L.filter (fun r => decide (r.scores.final = v))).Pairwise
      (fun a b => cmpFinal a b = true) := by
    apply List.pairwise_of_forall_mem_list
    intro a ha b hb
    have ha2 := (List.mem_filter.mp ha).2
    have hb2 := (List.mem_filter.mp hb).2
    simp only [decide_eq_true_eq] at ha2 hb2
    simp [cmpFinal, ha2, hb2]
  have h1 : L.filter (fun r => decide (r.scores.final = v)) <+
      L.mergeSort cmpFinal :=
    List.sublist_mergeSort cmpFinal_trans cmpFinal_total hpair hsub
  have h2 : (L.mergeSort cmpFinal).filter (fun r => decide (r.scores.final = v))
      ~ L.filter (fun r => decide (r.scores.final = v)) :=
    (List.mergeSort_perm L cmpFinal).filter _
  have h3 : (L.filter (fun r => decide (r.scores.final = v))).filter
      (fun r => decide (r.scores.final = v)) =
      L.filter (fun r => decide (r.scores.final = v)) :=
    List.filter_eq_self.mpr fun a ha => (List.mem_filter.mp ha).2
  have h4 : L.filter (fun r => decide (r.scores.final = v)) <+
      (L.mergeSort cmpFinal).filter (fun r => decide (r.scores.final = v)) := by
    have h5 := h1.filter (fun r => decide (r.scores.final = v))
    rwa [h3] at h5
  exact (h4.eq_of_length h2.length_eq.symm).symm

theorem rank_cities_eq {cities : List City} {prefs : Preferences} {top_n : ℕ}
    {res : List ScoredCity} (h : rank_cities cities prefs top_n = some res) :
    ∃ L, survivors prefs cities = some L ∧
      res = (L.mergeSort cmpFinal).take (prefs.num_results.getD top_n) := by
  unfold rank_cities at h
  cases hL : survivors prefs cities with
  | none => rw [hL] at h; simp at h
  | some L =>
    rw [hL] at h
    simp only [Option.map_some'] at h
    exact ⟨L, rfl, (Option.some.inj h).symm⟩

/-! ### Claim theorems -/

/-- C7: the temperature scorer with both `temp_min` and `temp_max` absent
returns exactly 0.65, for every city temperature. -/
theorem score_temperature_no_bounds (t : ℝ) :
    score_temperature t none none = 0.65 := by
  unfold score_temperature
  simp

/-- C4: for every month and every pair of month sets, the crowd scorer
classifies the month into exactly one season (peak if the month is in
`peak_months`, else shoulder if in `shoulder_months`, else off) and, for each
of the three preferences, returns exactly the value of the table in section
4.3 of the spec at that (preference, season) pair. -/
theorem score_crowd_table_exact (m : ℤ) (pk sh : List ℤ) :
    (seasonOf m pk sh = "peak" ↔ m ∈ pk) ∧
    (seasonOf m pk sh = "shoulder" ↔ (m ∉ pk ∧ m ∈ sh)) ∧
    (seasonOf m pk sh = "off" ↔ (m ∉ pk ∧ m ∉ sh)) ∧
    score_crowd m pk sh "off_peak" =
      spec_crowd_value "off_peak" (seasonOf m pk sh) ∧
    score_crowd m pk sh "shoulder" =
      spec_crowd_value "shoulder" (seasonOf m pk sh) ∧
    score_crowd m pk sh "any" = spec_crowd_value "any" (seasonOf m pk sh) := by
  unfold score_crowd crowd_table spec_crowd_value seasonOf
  by_cases h1 : m ∈ pk <;> by_cases h2 : m ∈ sh <;> simp [h1, h2] <;>
    norm_num

/-- C8: an unrecognized `rain_tolerance` string makes the precipitation scorer
take the medium branch and an unrecognized `crowd_preference` string makes the
crowd scorer use the `any` table row; both scorers are total functions, so no
error is raised on an unknown enum value. -/
theorem unknown_enum_fallback (tol pref : String) (p : ℝ) (m : ℤ)
    (pk sh : List ℤ) (h1 : tol ≠ "low") (h2 : tol ≠ "high")
    (h3 : pref ≠ "off_peak") (h4 : pref ≠ "shoulder") :
    score_precipitation p tol = score_precipitation p "medium" ∧
    score_crowd m pk sh pref = score_crowd m pk sh "any" := by
  constructor
  · unfold score_precipitation
    simp [h1, h2]
  · unfold score_crowd crowd_table
    simp [h3, h4]

/-- Witness for C8 at a concrete unrecognized tolerance and preference. -/
theorem unknown_enum_fallback_witness :
    ("gibberish" : String) ≠ "low" ∧ ("gibberish" : String) ≠ "high" ∧
    ("crowded" : String) ≠ "off_peak" ∧ ("crowded" : String) ≠ "shoulder" ∧
    (score_precipitation 120 "gibberish" = score_precipitation 120 "medium" ∧
      score_crowd 7 [7] [] "crowded" = score_crowd 7 [7] [] "any") :=
  ⟨by decide, by decide, by decide, by decide,
    unknown_enum_fallback "gibberish" "crowded" 120 7 [7] []
      (by decide) (by decide) (by decide) (by decide)⟩

/-- C6: for every fixed tolerance string the precipitation scorer is monotone
non-increasing in the precipitation amount, and at 0mm it returns exactly 1
(its maximum) for every tolerance. -/
theorem score_precipitation_monotone (tol : String) (p1 p2 : ℝ) (h : p1 ≤ p2) :
    score_precipitation p2 tol ≤ score_precipitation p1 tol ∧
    score_precipitation 0 tol = 1 := by
  have hbase : max 0.0 (1.0 - p2 / 300.0) ≤ max 0.0 (1.0 - p1 / 300.0) :=
    max_le_max (le_refl _) (by linarith)
  have hb0 : (0 : ℝ) ≤ max 0.0 (1.0 - p2 / 300.0) :=
    le_trans (by norm_num) (le_max_left _ _)
  have h0 : max 0.0 (1.0 - (0 : ℝ) / 300.0) = 1 := by norm_num
  constructor
  · unfold score_precipitation
    dsimp only
    split_ifs with hl hh
    · exact round4_mono (Real.rpow_le_rpow hb0 hbase (by norm_num))
    · exact round4_mono (by linarith)
    · exact round4_mono hbase
  · unfold score_precipitation
    dsimp only
    split_ifs with hl hh
    · rw [h0, Real.one_rpow]
      exact round4_one
    · rw [h0, show (0.5 : ℝ) + 1 * 0.5 = 1 by norm_num]
      exact round4_one
    · rw [h0]
      exact round4_one

/-- Witness for C6 at tolerance low and precipitations 0 and 150. -/
theorem score_precipitation_monotone_witness :
    (0 : ℝ) ≤ 150 ∧
    (score_precipitation 150 "low" ≤ score_precipitation 0 "low" ∧
      score_precipitation 0 "low" = 1) :=
  ⟨by norm_num, score_precipitation_monotone "low" 0 150 (by norm_num)⟩

/-- C9: on an empty ranked-candidate list the formatter returns the single
no-match string, which contains the phrase "No destinations matched", the
requested month name, and the suggestion to broaden preferences. -/
theorem format_results_empty (month_name : String) :
    format_results_for_claude [] month_name =
      "[No destinations matched the criteria for " ++ month_name ++
        ". Suggest broadening preferences.]" ∧
    (∃ l₁ l₂, (format_results_for_claude [] month_name).data =
      l₁ ++ "No destinations matched".data ++ l₂) ∧
    (∃ l₁ l₂, (format_results_for_claude [] month_name).data =
      l₁ ++ month_name.data ++ l₂) ∧
    (∃ l₁ l₂, (format_results_for_claude [] month_name).data =
      l₁ ++ "broadening preferences".data ++ l₂) := by
  have heq : format_results_for_claude [] month_name =
      "[No destinations matched the criteria for " ++ month_name ++
        ". Suggest broadening preferences.]" := by
    unfold format_results_for_claude
    simp
  have hdata : (format_results_for_claude [] month_name).data =
      "[No destinations matched the criteria for ".data ++ month_name.data ++
        ". Suggest broadening preferences.]".data := by
    rw [heq]
    simp [String.data_append]
  refine ⟨heq, ?_, ?_, ?_⟩
  · refine ⟨"[".data, " the criteria for ".data ++ month_name.data ++
      ". Suggest broadening preferences.]".data, ?_⟩
    rw [hdata,
      show "[No destinations matched the criteria for ".data =
        "[".data ++ "No destinations matched".data ++ " the criteria for ".data
        from by decide]
    simp
  · exact ⟨"[No destinations matched the criteria for ".data,
      ". Suggest broadening preferences.]".data, hdata⟩
  · refine ⟨"[No destinations matched the criteria for ".data ++
      month_name.data ++ ". Suggest ".data, ".]".data, ?_⟩
    rw [hdata,
      show ". Suggest broadening preferences.]".data =
        ". Suggest ".data ++ "broadening preferences".data ++ ".]".data
        from by decide]
    simp

/-- Normal form of the temperature scorer when both bounds are supplied in
order. -/
theorem score_temperature_some (lo hi t : ℝ) (hlh : lo ≤ hi) :
    score_temperature t (some lo) (some hi) =
      if lo ≤ t ∧ t ≤ hi then
        round4 (max 0.85
          (1.0 - 0.15 * |t - (lo + hi) / 2| / max ((hi - lo) / 2) 1))
      else
        round4 (max 0.0 (Real.exp
          (-0.5 * (max (lo - t) (t - hi) / max ((hi - lo) / 2) 3) ^ 2))) := by
  unfold score_temperature
  rw [if_neg (by simp)]
  dsimp only [Option.getD_some]
  rw [min_eq_left hlh, max_eq_right hlh]

theorem exp_neg_half_le : Real.exp (-0.5 : ℝ) ≤ 2 / 3 := by
  have h1 : (3 : ℝ) / 2 ≤ Real.exp 0.5 := by
    have h := Real.add_one_le_exp (0.5 : ℝ)
    linarith
  have h2 : Real.exp (-0.5 : ℝ) = (Real.exp 0.5)⁻¹ := by
    rw [← Real.exp_neg]
  rw [h2]
  rw [show (2 : ℝ) / 3 = ((3 : ℝ) / 2)⁻¹ by norm_num]
  exact inv_le_inv_of_le (by norm_num) h1

theorem round4_simple (n : ℤ) : round4 ((n : ℝ) / 10000) = (n : ℝ) / 10000 :=
  round4_of_mul n (by field_simp)

/-- C3 (amended): with both bounds given and `temp_min ≤ temp_max`, the score
at the range midpoint is ≥ the score at the upper boundary, which is ≥ the
score one σ beyond the boundary; and among temperatures strictly outside the
preferred range the score is monotone non-increasing in the distance from the
range.  (Monotonicity across the boundary fails; see the counterexample.) -/
theorem score_temperature_decay (lo hi t1 t2 : ℝ) (hlh : lo ≤ hi)
    (h1 : ¬(lo ≤ t1 ∧ t1 ≤ hi)) (h2 : ¬(lo ≤ t2 ∧ t2 ≤ hi))
    (hd : distToRange t1 lo hi ≤ distToRange t2 lo hi) :
    score_temperature hi (some lo) (some hi) ≤
      score_temperature ((lo + hi) / 2) (some lo) (some hi) ∧
    score_temperature (hi + max ((hi - lo) / 2) 3) (some lo) (some hi) ≤
      score_temperature hi (some lo) (some hi) ∧
    score_temperature t2 (some lo) (some hi) ≤
      score_temperature t1 (some lo) (some hi) := by
  have hsig3 : (3 : ℝ) ≤ max ((hi - lo) / 2) 3 := le_max_right _ _
  have hsigpos : (0 : ℝ) < max ((hi - lo) / 2) 3 := by linarith
  -- the score at the midpoint is exactly 1
  have hmid : score_temperature ((lo + hi) / 2) (some lo) (some hi) = 1 := by
    rw [score_temperature_some lo hi _ hlh,
      if_pos ⟨by linarith, by linarith⟩, sub_self, abs_zero, mul_zero,
      zero_div, sub_zero, max_eq_right (by norm_num : (0.85 : ℝ) ≤ 1.0),
      show (1.0 : ℝ) = 1 by norm_num, round4_one]
  -- the score at the upper boundary is at least 0.85
  have hbound : (0.85 : ℝ) ≤ score_temperature hi (some lo) (some hi) := by
    rw [score_temperature_some lo hi hi hlh, if_pos ⟨hlh, le_refl hi⟩]
    have h85 : round4 (0.85 : ℝ) = 0.85 := round4_of_mul 8500 (by norm_num)
    calc (0.85 : ℝ) = round4 0.85 := h85.symm
      _ ≤ _ := round4_mono (le_max_left _ _)
  refine ⟨?_, ?_, ?_⟩
  · rw [hmid]
    exact (score_temperature_mem hi (some lo) (some hi)).2
  · -- one σ beyond the boundary
    have hout : ¬(lo ≤ hi + max ((hi - lo) / 2) 3 ∧
        hi + max ((hi - lo) / 2) 3 ≤ hi) := by
      intro hco
      linarith [hco.2]
    rw [score_temperature_some lo hi _ hlh, if_neg hout]
    have hgap : max (lo - (hi + max ((hi - lo) / 2) 3))
        (hi + max ((hi - lo) / 2) 3 - hi) = max ((hi - lo) / 2) 3 := by
      rw [max_eq_right (by linarith)]
      ring_nf
    rw [hgap, div_self (ne_of_gt hsigpos), one_pow, mul_one,
      show (0.0 : ℝ) = 0 by norm_num,
      max_eq_right (le_of_lt (Real.exp_pos _))]
    have hle : Real.exp (-0.5 : ℝ) ≤ 2 / 3 := exp_neg_half_le
    have hr := round4_le_add (x := Real.exp (-0.5 : ℝ))
    linarith
  · -- monotone among out-of-range temperatures
    have hgap1 : (0 : ℝ) < max (lo - t1) (t1 - hi) := by
      rcases not_and_or.mp h1 with hl | hr
      · exact lt_of_lt_of_le (by linarith [not_le.mp hl]) (le_max_left _ _)
      · exact lt_of_lt_of_le (by linarith [not_le.mp hr]) (le_max_right _ _)
    have hgap2 : (0 : ℝ) < max (lo - t2) (t2 - hi) := by
      rcases not_and_or.mp h2 with hl | hr
      · exact lt_of_lt_of_le (by linarith [not_le.mp hl]) (le_max_left _ _)
      · exact lt_of_lt_of_le (by linarith [not_le.mp hr]) (le_max_right _ _)
    have hd1 : distToRange t1 lo hi = max (lo - t1) (t1 - hi) :=
      max_eq_right (le_of_lt hgap1)
    have hd2 : distToRange t2 lo hi = max (lo - t2) (t2 - hi) :=
      max_eq_right (le_of_lt hgap2)
    rw [hd1, hd2] at hd
    rw [score_temperature_some lo hi t1 hlh, if_neg h1,
      score_temperature_some lo hi t2 hlh, if_neg h2]
    apply round4_mono
    apply max_le_max (le_refl _)
    rw [Real.exp_le_exp]
    have hq1 : (0 : ℝ) ≤ max (lo - t1) (t1 - hi) / max ((hi - lo) / 2) 3 :=
      div_nonneg (le_of_lt hgap1) (le_of_lt hsigpos)
    have hq : max (lo - t1) (t1 - hi) / max ((hi - lo) / 2) 3 ≤
        max (lo - t2) (t2 - hi) / max ((hi - lo) / 2) 3 :=
      div_le_div_of_nonneg_right hd hsigpos.le
    nlinarith [pow_le_pow_left hq1 hq 2]

/-- Counterexample for C3: the claim that the temperature score is monotone
non-increasing in the distance from the preferred range fails across the range
boundary: with range [20, 30], the in-range temperature 30 is at distance 0
and scores 0.85, while 30.5 is at distance 0.5 and scores higher. -/
theorem score_temperature_dist_cex :
    distToRange 30 20 30 ≤ distToRange 30.5 20 30 ∧
    score_temperature 30 (some 20) (some 30) <
      score_temperature 30.5 (some 20) (some 30) := by
  constructor
  · unfold distToRange
    rw [show ((20 : ℝ) - 30) = -10 by norm_num,
      show ((30 : ℝ) - 30) = 0 by norm_num,
      show ((20 : ℝ) - 30.5) = -10.5 by norm_num,
      show ((30.5 : ℝ) - 30) = 0.5 by norm_num,
      max_eq_right (by norm_num : (-10 : ℝ) ≤ 0),
      max_eq_right (by norm_num : (-10.5 : ℝ) ≤ 0.5), max_self,
      max_eq_right (by norm_num : (0 : ℝ) ≤ 0.5)]
    norm_num
  · have hS1 : score_temperature 30 (some 20) (some 30) = 0.85 := by
      rw [score_temperature_some 20 30 30 (by norm_num),
        if_pos (by norm_num)]
      rw [show ((30 : ℝ) - (20 + 30) / 2) = 5 by norm_num,
        abs_of_nonneg (by norm_num : (0 : ℝ) ≤ 5),
        show ((30 : ℝ) - 20) / 2 = 5 by norm_num,
        max_eq_left (by norm_num : (1 : ℝ) ≤ 5),
        show (1.0 : ℝ) - 0.15 * 5 / 5 = 0.85 by norm_num, max_self]
      exact round4_of_mul 8500 (by norm_num)
    have hS2 : (0.85 : ℝ) < score_temperature 30.5 (some 20) (some 30) := by
      rw [score_temperature_some 20 30 30.5 (by norm_num),
        if_neg (by norm_num)]
      rw [show ((20 : ℝ) - 30.5) = -10.5 by norm_num,
        show ((30.5 : ℝ) - 30) = 0.5 by norm_num,
        max_eq_right (by norm_num : (-10.5 : ℝ) ≤ 0.5),
        show ((30 : ℝ) - 20) / 2 = 5 by norm_num,
        max_eq_left (by norm_num : (3 : ℝ) ≤ 5),
        show (0.0 : ℝ) = 0 by norm_num,
        max_eq_right (le_of_lt (Real.exp_pos _))]
      have hexp : (0.995 : ℝ) ≤ Real.exp (-0.5 * ((0.5 : ℝ) / 5) ^ 2) := by
        have h := Real.add_one_le_exp (-0.5 * ((0.5 : ℝ) / 5) ^ 2)
        have he : (-0.5 : ℝ) * ((0.5 : ℝ) / 5) ^ 2 = -0.005 := by norm_num
        rw [he] at h ⊢
        linarith
      have hr := sub_le_round4 (x := Real.exp (-0.5 * ((0.5 : ℝ) / 5) ^ 2))
      linarith
    linarith

/-- Witness for C3 (amended) at the range [20, 30] and the out-of-range
temperatures 31 and 32. -/
theorem score_temperature_decay_witness :
    (20 : ℝ) ≤ 30 ∧ ¬((20 : ℝ) ≤ 31 ∧ (31 : ℝ) ≤ 30) ∧
    ¬((20 : ℝ) ≤ 32 ∧ (32 : ℝ) ≤ 30) ∧
    distToRange 31 20 30 ≤ distToRange 32 20 30 ∧
    (score_temperature 30 (some 20) (some 30) ≤
      score_temperature ((20 + 30) / 2) (some 20) (some 30) ∧
    score_temperature (30 + max ((30 - 20) / 2) 3) (some 20) (some 30) ≤
      score_temperature 30 (some 20) (some 30) ∧
    score_temperature 32 (some 20) (some 30) ≤
      score_temperature 31 (some 20) (some 30)) := by
  have hd : distToRange 31 20 30 ≤ distToRange 32 20 30 := by
    unfold distToRange
    rw [show ((20 : ℝ) - 31) = -11 by norm_num,
      show ((31 : ℝ) - 30) = 1 by norm_num,
      show ((20 : ℝ) - 32) = -12 by norm_num,
      show ((32 : ℝ) - 30) = 2 by norm_num,
      max_eq_right (by norm_num : (-11 : ℝ) ≤ 1),
      max_eq_right (by norm_num : (-12 : ℝ) ≤ 2),
      max_eq_right (by norm_num : (0 : ℝ) ≤ 1),
      max_eq_right (by norm_num : (0 : ℝ) ≤ 2)]
    norm_num
  exact ⟨by norm_num, by norm_num, by norm_num, hd,
    score_temperature_decay 20 30 31 32 (by norm_num) (by norm_num)
      (by norm_num) hd⟩

/-! ### Evaluation of the pipeline on the fixtures -/

theorem survivors_A : survivors prefsA [cityA] = some [scA] := rfl

theorem rank_A : rank_cities [cityA] prefsA 8 = some [scA] := by
  unfold rank_cities
  rw [survivors_A]
  simp only [Option.map_some']
  rw [List.mergeSort_singleton]
  rfl

theorem survivors_N1 : survivors prefsN1 [cityA, cityB] = some [scA, scB] :=
  rfl

theorem mergeSort_AB : List.mergeSort [scA, scB] cmpFinal = [scA, scB] := by
  apply List.mergeSort_of_sorted
  refine List.pairwise_cons.mpr ⟨?_, List.pairwise_singleton _ _⟩
  intro b hb
  rw [List.mem_singleton] at hb
  subst hb
  show cmpFinal scA scB = true
  unfold cmpFinal
  simp only [decide_eq_true_eq]
  exact le_refl scoresA.final

theorem rank_N1 : rank_cities [cityA, cityB] prefsN1 8 = some [scA] := by
  unfold rank_cities
  rw [survivors_N1]
  simp only [Option.map_some']
  rw [mergeSort_AB]
  rfl

theorem survivors_Ex : survivors prefsEx [cityC, cityA] = some [scA] := rfl

theorem rank_Ex : rank_cities [cityC, cityA] prefsEx 8 = some [scA] := by
  unfold rank_cities
  rw [survivors_Ex]
  simp only [Option.map_some']
  rw [List.mergeSort_singleton]
  rfl

theorem survivors_zero : survivors prefs0 [cityA] = some [scA0] := rfl

theorem rank_zero : rank_cities [cityA] prefs0 8 = some [scA0] := by
  unfold rank_cities
  rw [survivors_zero]
  simp only [Option.map_some']
  rw [List.mergeSort_singleton]
  rfl

theorem cityB_ne_cityA : cityB ≠ cityA := by
  intro h
  have h2 := congrArg City.name h
  simp [cityA, cityB] at h2

/-- C1: whenever `rank_cities` returns a result list, that list is sorted
non-increasing by final score; candidates with a given final score appear in
the output in the same relative order as in the scored survivor list `L`
(which itself lists the cities in catalog order); and the output length is at
most `num_results` and at most the number of surviving cities. -/
theorem rank_cities_sorted_stable_truncated (cities : List City)
    (prefs : Preferences) (top_n : ℕ) (L res : List ScoredCity)
    (hL : survivors prefs cities = some L)
    (hres : rank_cities cities prefs top_n = some res) :
    res.Pairwise (fun a b => b.scores.final ≤ a.scores.final) ∧
    (∀ v : ℝ, res.filter (fun r => decide (r.scores.final = v)) <+
      L.filter (fun r => decide (r.scores.final = v))) ∧
    L.map (fun r => r.city) =
      cities.filter (fun c => !pyExcluded (excludeList prefs) c) ∧
    res.length ≤ prefs.num_results.getD top_n ∧
    res.length ≤ L.length := by
  obtain ⟨L2, hL2, hres2⟩ := rank_cities_eq hres
  rw [hL] at hL2
  cases hL2
  subst hres2
  refine ⟨?_, ?_, survivors_map_city hL, ?_, ?_⟩
  · have hs := List.sorted_mergeSort cmpFinal_trans cmpFinal_total L
    have hs2 : (L.mergeSort cmpFinal).Pairwise
        (fun a b => b.scores.final ≤ a.scores.final) :=
      hs.imp fun h => of_decide_eq_true h
    exact List.Pairwise.sublist (List.take_sublist _ _) hs2
  · intro v
    have hft := (List.take_sublist (prefs.num_results.getD top_n)
      (L.mergeSort cmpFinal)).filter (fun r => decide (r.scores.final = v))
    rwa [mergeSort_filter_stable] at hft
  · rw [List.length_take]
    exact min_le_left _ _
  · rw [List.length_take]
    exact le_trans (min_le_right _ _) (le_of_eq (List.length_mergeSort L))

/-- Witness for C1 on a one-city catalog under default preferences. -/
theorem rank_cities_sorted_stable_truncated_witness :
    survivors prefsA [cityA] = some [scA] ∧
    rank_cities [cityA] prefsA 8 = some [scA] ∧
    [scA].Pairwise (fun a b => b.scores.final ≤ a.scores.final) ∧
    [scA].filter (fun r => decide (r.scores.final = scoresA.final)) <+
      [scA].filter (fun r => decide (r.scores.final = scoresA.final)) ∧
    [scA].map (fun r => r.city) =
      [cityA].filter (fun c => !pyExcluded (excludeList prefsA) c) ∧
    [scA].length ≤ prefsA.num_results.getD 8 ∧
    [scA].length ≤ [scA].length := by
  have H := rank_cities_sorted_stable_truncated [cityA] prefsA 8 [scA] [scA]
    survivors_A rank_A
  exact ⟨survivors_A, rank_A, H.1, H.2.1 scoresA.final, H.2.2.1,
    H.2.2.2.1, H.2.2.2.2⟩

/-- C2: whenever `rank_cities` returns a result list over a catalog with
nonnegative precipitation data, every reported component score and the final
weighted score lie in the closed interval [0, 1]. -/
theorem rank_cities_scores_in_unit_interval (cities : List City)
    (prefs : Preferences) (top_n : ℕ) (res : List ScoredCity)
    (hprecip : ∀ c ∈ cities, ∀ p ∈ c.monthly_precip, (0 : ℝ) ≤ p)
    (hres : rank_cities cities prefs top_n = some res) :
    ∀ r ∈ res,
      (0 ≤ r.scores.temp ∧ r.scores.temp ≤ 1) ∧
      (0 ≤ r.scores.rain ∧ r.scores.rain ≤ 1) ∧
      (0 ≤ r.scores.crowd ∧ r.scores.crowd ≤ 1) ∧
      (0 ≤ r.scores.tags ∧ r.scores.tags ≤ 1) ∧
      (0 ≤ r.scores.final ∧ r.scores.final ≤ 1) := by
  intro r hr
  obtain ⟨L, hL, hrs⟩ := rank_cities_eq hres
  subst hrs
  have hrL : r ∈ L :=
    List.mem_mergeSort.mp ((List.take_sublist _ _).subset hr)
  obtain ⟨hmem, hsc⟩ := mem_survivors hL hrL
  obtain ⟨ct, cp, hct, hcp, hreq⟩ := score_city_eq hsc
  have hp : (0 : ℝ) ≤ cp := hprecip _ hmem _ (pyIdx_mem hcp)
  obtain ⟨t0, t1⟩ := score_temperature_mem ct prefs.temp_min prefs.temp_max
  obtain ⟨r0, r1⟩ := score_precipitation_mem cp
    (prefs.rain_tolerance.getD "medium") hp
  obtain ⟨c0, c1⟩ := score_crowd_mem (month0 prefs + 1) r.city.peak_months
    r.city.shoulder_months (prefs.crowd_preference.getD "any")
  obtain ⟨g0, g1⟩ := score_tags_mem r.city.tags (prefs.environment_tags.getD [])
  have hT : r.scores.temp = score_temperature ct prefs.temp_min prefs.temp_max
    := by rw [hreq]
  have hR : r.scores.rain =
      score_precipitation cp (prefs.rain_tolerance.getD "medium") := by
    rw [hreq]
  have hC : r.scores.crowd = score_crowd (month0 prefs + 1) r.city.peak_months
      r.city.shoulder_months (prefs.crowd_preference.getD "any") := by
    conv_lhs => rw [hreq]
  have hG : r.scores.tags =
      score_tags r.city.tags (prefs.environment_tags.getD []) := by
    conv_lhs => rw [hreq]
  have hF : r.scores.final = round4
      (0.40 * score_temperature ct prefs.temp_min prefs.temp_max +
        0.30 * score_precipitation cp (prefs.rain_tolerance.getD "medium") +
        0.20 * score_crowd (month0 prefs + 1) r.city.peak_months
          r.city.shoulder_months (prefs.crowd_preference.getD "any") +
        0.10 * score_tags r.city.tags (prefs.environment_tags.getD [])) := by
    conv_lhs => rw [hreq]
  refine ⟨⟨?_, ?_⟩, ⟨?_, ?_⟩, ⟨?_, ?_⟩, ⟨?_, ?_⟩, ?_, ?_⟩
  · rw [hT]; exact t0
  · rw [hT]; exact t1
  · rw [hR]; exact r0
  · rw [hR]; exact r1
  · rw [hC]; exact c0
  · rw [hC]; exact c1
  · rw [hG]; exact g0
  · rw [hG]; exact g1
  · rw [hF]
    apply round4_nonneg
    nlinarith [t0, r0, c0, g0]
  · rw [hF]
    apply round4_le_one
    nlinarith [t1, r1, c1, g1]

/-- Witness for C2: the single reported candidate of the one-city run has all
five scores inside [0, 1]. -/
theorem rank_cities_scores_in_unit_interval_witness :
    (0 ≤ scA.scores.temp ∧ scA.scores.temp ≤ 1) ∧
    (0 ≤ scA.scores.rain ∧ scA.scores.rain ≤ 1) ∧
    (0 ≤ scA.scores.crowd ∧ scA.scores.crowd ≤ 1) ∧
    (0 ≤ scA.scores.tags ∧ scA.scores.tags ≤ 1) ∧
    (0 ≤ scA.scores.final ∧ scA.scores.final ≤ 1) := by
  have H := rank_cities_scores_in_unit_interval [cityA] prefsA 8 [scA]
    (by
      intro c hc p hp
      rw [List.mem_singleton] at hc
      subst hc
      simp only [cityA] at hp
      simp only [List.mem_cons, List.not_mem_nil, or_false] at hp
      rcases hp with rfl | rfl | rfl | rfl | rfl | rfl | rfl | rfl | rfl |
        rfl | rfl | rfl <;> norm_num)
    rank_A
  exact H scA (List.mem_singleton_self scA)

/-- C5 (amended): the exclusion filter of `rank_cities` drops a catalog entry
exactly when some exclusion term is a case-insensitive substring of its region
or country name: the scored survivor list is the catalog filtered by that
test, the test is equivalent to the case-insensitive substring property, and
an excluded city never appears in the output.  (The original iff fails in the
only-if direction because truncation can also drop cities; see the
counterexample.) -/
theorem rank_cities_exclusion (cities : List City) (prefs : Preferences)
    (top_n : ℕ) (L : List ScoredCity)
    (hL : survivors prefs cities = some L) :
    L.map (fun r => r.city) =
      cities.filter (fun c => !pyExcluded (excludeList prefs) c) ∧
    (∀ c : City, pyExcluded (excludeList prefs) c = true ↔
      ∃ ex ∈ prefs.exclude_regions.getD [],
        (∃ l₁ l₂, (pyLower c.region).data = l₁ ++ (pyLower ex).data ++ l₂) ∨
        (∃ l₁ l₂, (pyLower c.country).data = l₁ ++ (pyLower ex).data ++ l₂)) ∧
    (∀ res, rank_cities cities prefs top_n = some res →
      ∀ r ∈ res, pyExcluded (excludeList prefs) r.city = false) := by
  refine ⟨survivors_map_city hL, ?_, ?_⟩
  · intro c
    unfold pyExcluded excludeList
    rw [List.any_eq_true]
    constructor
    · rintro ⟨ex, hex, hor⟩
      obtain ⟨ex0, hex0, rfl⟩ := List.mem_map.mp hex
      refine ⟨ex0, hex0, ?_⟩
      rw [Bool.or_eq_true] at hor
      rcases hor with h | h
      · exact Or.inl ((strIn_iff _ _).mp h)
      · exact Or.inr ((strIn_iff _ _).mp h)
    · rintro ⟨ex0, hex0, hor⟩
      refine ⟨pyLower ex0, List.mem_map_of_mem _ hex0, ?_⟩
      rw [Bool.or_eq_true]
      rcases hor with h | h
      · exact Or.inl ((strIn_iff _ _).mpr h)
      · exact Or.inr ((strIn_iff _ _).mpr h)
  · intro res hres r hr
    obtain ⟨L2, hL2, hrs⟩ := rank_cities_eq hres
    rw [hL] at hL2
    cases hL2
    subst hrs
    have hrL : r ∈ L :=
      List.mem_mergeSort.mp ((List.take_sublist _ _).subset hr)
    have hmap := survivors_map_city hL
    have hmem : r.city ∈ L.map (fun r => r.city) :=
      List.mem_map_of_mem _ hrL
    rw [hmap] at hmem
    have h2 := (List.mem_filter.mp hmem).2
    simpa using h2

/-- Counterexample for C5: with two identically scored cities, no exclusion
terms at all, and `num_results = 1`, `rank_cities` drops `cityB` even though
no exclusion term is a substring of its region or country, so "drops a city
if and only if some exclusion term matches" fails in the only-if direction. -/
theorem rank_cities_exclusion_cex :
    excludeList prefsN1 = [] ∧
    rank_cities [cityA, cityB] prefsN1 8 = some [scA] ∧
    cityB ∉ [scA].map (fun r => r.city) := by
  refine ⟨rfl, rank_N1, ?_⟩
  intro h
  simp only [List.map_cons, List.map_nil] at h
  rw [List.mem_singleton] at h
  exact cityB_ne_cityA h

/-- Witness for C5 (amended), exercising the spec's "Southeast Asia" example:
with `exclude_regions = ["asia"]`, `cityC` (region "Southeast Asia") is
excluded and only `cityA` is scored and returned. -/
theorem rank_cities_exclusion_witness :
    survivors prefsEx [cityC, cityA] = some [scA] ∧
    rank_cities [cityC, cityA] prefsEx 8 = some [scA] ∧
    [scA].map (fun r => r.city) =
      [cityC, cityA].filter (fun c => !pyExcluded (excludeList prefsEx) c) ∧
    (pyExcluded (excludeList prefsEx) cityC = true ↔
      ∃ ex ∈ prefsEx.exclude_regions.getD [],
        (∃ l₁ l₂, (pyLower cityC.region).data = l₁ ++ (pyLower ex).data ++ l₂)
          ∨
        (∃ l₁ l₂, (pyLower cityC.country).data =
          l₁ ++ (pyLower ex).data ++ l₂)) ∧
    pyExcluded (excludeList prefsEx) cityC = true ∧
    pyExcluded (excludeList prefsEx) scA.city = false := by
  have H := rank_cities_exclusion [cityC, cityA] prefsEx 8 [scA] survivors_Ex
  exact ⟨survivors_Ex, rank_Ex, H.1, H.2.1 cityC, by decide,
    H.2.2 [scA] rank_Ex scA (List.mem_singleton_self scA)⟩

/-- C10: with `travel_month = 0` (outside the documented 1-12 range) and
12-entry monthly arrays, `rank_cities` raises no error: the zero-based month
index is -1, every surviving city is scored (the survivor list is exactly the
filtered catalog), and each reported candidate's month data is the December
entry (index 11) of its arrays. -/
theorem rank_cities_month_zero (cities : List City) (prefs : Preferences)
    (top_n : ℕ) (hm : prefs.travel_month = some 0)
    (hlen : ∀ c ∈ cities, c.monthly_temp.length = 12 ∧
      c.monthly_precip.length = 12) :
    (rank_cities cities prefs top_n).isSome = true ∧
    (∀ L, survivors prefs cities = some L →
      L.map (fun r => r.city) =
        cities.filter (fun c => !pyExcluded (excludeList prefs) c)) ∧
    (∀ res, rank_cities cities prefs top_n = some res → ∀ r ∈ res,
      r.city.monthly_temp[11]? = some r.month_data.temp ∧
      r.city.monthly_precip[11]? = some r.month_data.precip) := by
  have hm0 : month0 prefs = -1 := by
    unfold month0
    rw [hm]
    rfl
  have hsome : ∀ c ∈ cities, pyExcluded (excludeList prefs) c = false →
      (score_city prefs c).isSome := by
    intro c hc _
    obtain ⟨h1, h2⟩ := hlen c hc
    obtain ⟨hEq1, x1, hx1⟩ := pyIdx_neg_one_eq h1
    obtain ⟨hEq2, x2, hx2⟩ := pyIdx_neg_one_eq h2
    unfold score_city
    rw [hm0, hEq1, hEq2, hx1, hx2]
    rfl
  obtain ⟨L, hL⟩ := survivors_of_forall_isSome hsome
  refine ⟨?_, ?_, ?_⟩
  · unfold rank_cities
    rw [hL]
    rfl
  · intro L2 hL2
    exact survivors_map_city hL2
  · intro res hres r hr
    obtain ⟨L2, hL2, hrs⟩ := rank_cities_eq hres
    subst hrs
    have hrL : r ∈ L2 :=
      List.mem_mergeSort.mp ((List.take_sublist _ _).subset hr)
    obtain ⟨hmem, hsc⟩ := mem_survivors hL2 hrL
    obtain ⟨ct, cp, hct, hcp, hreq⟩ := score_city_eq hsc
    obtain ⟨ht12, hp12⟩ := hlen _ hmem
    obtain ⟨hEq1, -⟩ := pyIdx_neg_one_eq ht12
    obtain ⟨hEq2, -⟩ := pyIdx_neg_one_eq hp12
    rw [hm0, hEq1] at hct
    rw [hm0, hEq2] at hcp
    have hmt : r.month_data.temp = ct := by rw [hreq]
    have hmp : r.month_data.precip = cp := by rw [hreq]
    rw [hmt, hmp]
    exact ⟨hct, hcp⟩

/-- Witness for C10 on the one-city catalog with travel month 0. -/
theorem rank_cities_month_zero_witness :
    prefs0.travel_month = some 0 ∧
    (rank_cities [cityA] prefs0 8).isSome = true ∧
    rank_cities [cityA] prefs0 8 = some [scA0] ∧
    [scA0].map (fun r => r.city) =
      [cityA].filter (fun c => !pyExcluded (excludeList prefs0) c) ∧
    scA0.city.monthly_temp[11]? = some scA0.month_data.temp ∧
    scA0.city.monthly_precip[11]? = some scA0.month_data.precip := by
  have H := rank_cities_month_zero [cityA] prefs0 8 rfl
    (by
      intro c hc
      rw [List.mem_singleton] at hc
      subst hc
      exact ⟨rfl, rfl⟩)
  obtain ⟨h1, h2, h3⟩ := H
  have h4 := h3 [scA0] rank_zero scA0 (List.mem_singleton_self scA0)
  exact ⟨rfl, h1, rank_zero, h2 [scA0] survivors_zero, h4.1, h4.2⟩

end SeasonRadar
